import Mathlib

/-!
Shallow embedding of the sample ERC20-style FVM actor (`src/src/lib.rs`).

The actor keeps one durable `State` record (name, symbol, max_supply, owner,
balances root) committed through the host as a single state root, and a
balances HAMT mapping actor IDs to arbitrary-precision signed balances.

Modelling choices, each justified by the source or the spec:
* `TokenAmount` (a signed big integer) is `Int`; `ActorID` (u64, used only
  for equality tests here) is `Nat`; `Address` is an opaque handle modelled
  as `Nat`, resolved through a host-supplied partial map.
* The content store is deterministic and content-addressed (same content,
  same hash; distinct content, distinct hash), so a CID is identified with
  the content it addresses: the `balances` field of `State` holds the
  balance map itself, and the actor's state root holds the `State` itself
  (`Option State`, `none` when no root was ever set).
* The balances HAMT is embedded as an association list with the HAMT's
  observable `get`/`set` semantics: `get` returns the stored value or
  `none`, `set` inserts or overwrites.
* Host interaction is explicit: an operation takes the host context
  (caller, address resolution) and the current state root, and returns the
  `Except` result together with the ordered list of store effects it
  performed (`put` of a map node on flush, `put` of a serialized state,
  `set_root`). Replaying the effect list over the old root yields the new
  root, so atomicity claims are statements about the effect trace.
* `abort!` in the source terminates the call with an exit code; it is
  embedded as returning `Except.error` with that exit code and whatever
  effects were already emitted (none are ever emitted before an abort).
-/

/-- Canonical numeric actor identifier (`fvm_shared::ActorID`). -/
abbrev ActorID := Nat

/-- A possibly-unresolved address form (`fvm_shared::address::Address`). -/
abbrev Address := Nat

/-- Signed arbitrary-precision token amount (`fvm_shared::econ::TokenAmount`). -/
abbrev TokenAmount := Int

/-- The exit codes used by the actor's `abort!` sites. -/
inductive ExitCode where
  | USR_FORBIDDEN
  | USR_ILLEGAL_ARGUMENT
  | USR_SERIALIZATION
  | USR_ILLEGAL_STATE
  | USR_INSUFFICIENT_FUNDS
  | USR_UNHANDLED_MESSAGE
  deriving DecidableEq, Repr

/-- The balances HAMT content: association list from actor ID to balance,
with at most one binding per key in the maps the actor builds. -/
abbrev BalMap := List (ActorID × TokenAmount)

/-- `Hamt::get`: the stored balance for a key, or `none` when the key was
never materialized. -/
def BalMap.get (m : BalMap) (k : ActorID) : Option TokenAmount :=
  match m with
  | [] => none
  | (a, b) :: rest => if a = k then some b else BalMap.get rest k

/-- `Hamt::set`: insert or overwrite the binding for a key. -/
def BalMap.set (m : BalMap) (k : ActorID) (v : TokenAmount) : BalMap :=
  match m with
  | [] => [(k, v)]
  | (a, b) :: rest =>
    if a = k then (k, v) :: rest else (a, b) :: BalMap.set rest k v

/-- Balance as read by the actor: absence is semantically zero
(`Ok(None) => BigIntDe(TokenAmount::from(0))`). -/
def balOf (m : BalMap) (k : ActorID) : TokenAmount :=
  (BalMap.get m k).getD 0

/-- The actor's durable state object (struct `State` in the source); the
`balances` field stands for the CID of the balances HAMT, identified with
the map content it addresses. -/
structure State where
  name : String
  symbol : String
  max_supply : TokenAmount
  owner : Address
  balances : BalMap
  deriving DecidableEq, Repr

/-- Constructor parameters (struct `ConstructorParams`). -/
structure ConstructorParams where
  name : String
  symbol : String
  max_supply : TokenAmount
  owner : Address
  deriving DecidableEq, Repr

/-- Transfer (and mint) parameters (struct `TransferParams`). -/
structure TransferParams where
  recipient : Address
  amount : TokenAmount
  deriving DecidableEq, Repr

/-- The host context visible to one call: the already-resolved caller ID
(`sdk::message::caller()`) and the address resolution service
(`sdk::actor::resolve_address`). -/
structure Host where
  caller : ActorID
  resolve : Address → Option ActorID

/-- One observable store effect of a call, in program order: a HAMT flush
writing a map node, a `put` of a serialized state object, or the host
`set_root` commit. -/
inductive Effect where
  | putMap : BalMap → Effect
  | putState : State → Effect
  | setRoot : State → Effect
  deriving DecidableEq, Repr

/-- Replay a call's effect trace over the previous state root: only
`set_root` changes the root the next call observes. -/
def applyEffects (root : Option State) : List Effect → Option State
  | [] => root
  | Effect.putMap _ :: rest => applyEffects root rest
  | Effect.putState _ :: rest => applyEffects root rest
  | Effect.setRoot s :: rest => applyEffects (some s) rest

/-- Outcome of one call: the `Except` result (an `abort!` becomes
`Except.error` with its exit code) and the emitted effect trace. -/
abbrev Outcome := Except ExitCode State × List Effect

/-- `State::load`: read the current state root and deserialize the state;
aborts with `USR_ILLEGAL_STATE` when there is no root / no state. -/
def State.load (root : Option State) : Except ExitCode State :=
  match root with
  | none => Except.error ExitCode.USR_ILLEGAL_STATE
  | some s => Except.ok s

/-- `State::save`: serialize the state, `put` it, and `set_root` the
resulting CID — the effect trace of a save, in program order. -/
def State.save (s : State) : List Effect :=
  [Effect.putState s, Effect.setRoot s]

/-- The well-known init-actor identity checked by the constructor. -/
def INIT_ACTOR_ADDR : ActorID := 1

/-- `State::new`: build a fresh empty balances HAMT, flush it (one map-node
`put`), and assemble the state from the parameters plus that root. -/
def State.new (p : ConstructorParams) : State :=
  { name := p.name
    symbol := p.symbol
    max_supply := p.max_supply
    owner := p.owner
    balances := [] }

/-- Method 1, `constructor`: abort `USR_FORBIDDEN` unless the caller is the
init actor; otherwise build `State::new params` (flushing the empty HAMT)
and `State::save` it. -/
def constructor (h : Host) (p : ConstructorParams) : Outcome :=
  if h.caller ≠ INIT_ACTOR_ADDR then
    (Except.error ExitCode.USR_FORBIDDEN, [])
  else
    (Except.ok (State.new p), Effect.putMap [] :: State.save (State.new p))

/-- Method 2, `mint`: load the state, resolve `state.owner` (abort
`USR_ILLEGAL_ARGUMENT` on failure), abort `USR_FORBIDDEN` when the resolved
owner is not the caller, load the balances HAMT — and then return without
writing any balance, flushing, or committing anything (the function body
ends after the HAMT load). -/
def mint (h : Host) (root : Option State) (_p : TransferParams) : Outcome :=
  match State.load root with
  | Except.error e => (Except.error e, [])
  | Except.ok state =>
    match h.resolve state.owner with
    | none => (Except.error ExitCode.USR_ILLEGAL_ARGUMENT, [])
    | some owner_id =>
      if owner_id ≠ h.caller then
        (Except.error ExitCode.USR_FORBIDDEN, [])
      else
        (Except.ok state, [])

/-- Method 3, `transfer`: load state and balances, read the sender balance
(caller ID, absence is zero), abort `USR_INSUFFICIENT_FUNDS` when
`sender_bal < amount`, resolve the recipient (abort `USR_ILLEGAL_ARGUMENT`
on failure), abort `USR_ILLEGAL_ARGUMENT` on self-send, read the recipient
balance, write `sender_bal - amount` then `recipient_bal + amount`, flush
the HAMT, store the updated state, and set the new root. -/
def transfer (h : Host) (root : Option State) (p : TransferParams) : Outcome :=
  match State.load root with
  | Except.error e => (Except.error e, [])
  | Except.ok state =>
    let sender_id := h.caller
    let sender_bal := balOf state.balances sender_id
    if sender_bal < p.amount then
      (Except.error ExitCode.USR_INSUFFICIENT_FUNDS, [])
    else
      match h.resolve p.recipient with
      | none => (Except.error ExitCode.USR_ILLEGAL_ARGUMENT, [])
      | some recipient_id =>
        if sender_id = recipient_id then
          (Except.error ExitCode.USR_ILLEGAL_ARGUMENT, [])
        else
          let recipient_bal := balOf state.balances recipient_id
          let balances2 :=
            BalMap.set (BalMap.set state.balances sender_id (sender_bal - p.amount))
              recipient_id (recipient_bal + p.amount)
          let state2 : State := { state with balances := balances2 }
          (Except.ok state2, [Effect.putMap balances2, Effect.putState state2, Effect.setRoot state2])

/-- The balances map produced by a successful transfer, as built by the
source: sender written first with `sender_bal - amount`, recipient second
with `recipient_bal + amount`. -/
def transferResultMap (st : State) (sender rid : ActorID) (amount : TokenAmount) : BalMap :=
  BalMap.set (BalMap.set st.balances sender (balOf st.balances sender - amount)) rid
    (balOf st.balances rid + amount)

/-- The state committed by a successful transfer: the loaded state with only
its `balances` field replaced by the flushed new map root. -/
def transferResultState (st : State) (sender rid : ActorID) (amount : TokenAmount) : State :=
  { st with balances := transferResultMap st sender rid amount }

/-- Atomicity of one call outcome relative to the previous root: an
erroring call emits no `set_root` and leaves the root unchanged, and any
`set_root` the call does emit is the last effect of the trace. -/
def opAtomic (out : Outcome) (root : Option State) : Prop :=
  ((∃ e, out.1 = Except.error e) →
    ((∀ s, Effect.setRoot s ∉ out.2) ∧ applyEffects root out.2 = root)) ∧
  (∀ s, Effect.setRoot s ∈ out.2 → out.2.getLast? = some (Effect.setRoot s))

/-! ## Concrete fixtures used by witnesses and counterexamples -/

/-- A host whose resolver is the identity on addresses, calling as actor 1. -/
def exHost1 : Host := { caller := 1, resolve := fun a => some a }

/-- A constructed state where actor 1 holds 50 tokens. -/
def exState1 : State :=
  { name := "Tok", symbol := "TOK", max_supply := 1000, owner := 5, balances := [(1, 50)] }

/-- Transfer of 40 tokens to address 2. -/
def exParams1 : TransferParams := { recipient := 2, amount := 40 }

/-- A host calling as actor 7, with every address resolving to 7. -/
def exHost2 : Host := { caller := 7, resolve := fun _ => some 7 }

/-- A freshly constructed state (empty balances) owned by address 5. -/
def exState2 : State :=
  { name := "Tok", symbol := "TOK", max_supply := 1000, owner := 5, balances := [] }

/-- Mint request for 100 tokens. -/
def exParams2 : TransferParams := { recipient := 5, amount := 100 }

/-- A host calling as actor 1, with every address resolving to 2. -/
def exHost3 : Host := { caller := 1, resolve := fun _ => some 2 }

/-- Transfer of 7 tokens to address 2. -/
def exParams3 : TransferParams := { recipient := 2, amount := 7 }

/-- A host calling as actor 1, with every address resolving to 1 (self). -/
def exHost4 : Host := { caller := 1, resolve := fun _ => some 1 }

/-- Self-transfer request of 5 tokens. -/
def exParams4 : TransferParams := { recipient := 9, amount := 5 }

/-- A state where actor 1 (the sender) holds 10 tokens. -/
def exState4w : State :=
  { name := "Tok", symbol := "TOK", max_supply := 1000, owner := 5, balances := [(1, 10)] }

/-- A non-init host (caller 2). -/
def exHost5 : Host := { caller := 2, resolve := fun a => some a }

/-- The init-actor host (caller 1). -/
def exHost5i : Host := { caller := 1, resolve := fun a => some a }

/-- Constructor parameters for a token owned by address 5. -/
def exCParams5 : ConstructorParams :=
  { name := "Tok", symbol := "TOK", max_supply := 1000, owner := 5 }

/-- A host calling as actor 7 whose resolver fails on every address. -/
def exHost6n : Host := { caller := 7, resolve := fun _ => none }

/-- A host calling as actor 7 with every address resolving to 3. -/
def exHost6f : Host := { caller := 7, resolve := fun _ => some 3 }

/-- A host calling as actor 1 with every address resolving to 2, used for
negative-amount transfers. -/
def exHost8 : Host := { caller := 1, resolve := fun _ => some 2 }

/-- A state where the sender (actor 1) already has a negative balance -5,
reachable through earlier negative-amount transfers. -/
def exState8 : State :=
  { name := "Tok", symbol := "TOK", max_supply := 1000, owner := 5, balances := [(1, -5)] }

/-- Transfer request with the negative amount -3. -/
def exParams8 : TransferParams := { recipient := 2, amount := -3 }

/-- An empty-balances state for the negative-amount success witness. -/
def exState8w : State :=
  { name := "Tok", symbol := "TOK", max_supply := 1000, owner := 5, balances := [] }

/-- An empty-balances state: no key is materialized. -/
def exState9 : State :=
  { name := "Tok", symbol := "TOK", max_supply := 1000, owner := 5, balances := [] }

/-- Zero-amount transfer request to address 2. -/
def exParams9 : TransferParams := { recipient := 2, amount := 0 }

/-- The state committed by the zero-amount transfer from the empty map:
both the sender and the recipient are materialized with balance 0. -/
def exState9r : State :=
  { name := "Tok", symbol := "TOK", max_supply := 1000, owner := 5,
    balances := [(1, 0), (2, 0)] }

/-! ## Lemmas about the balances map -/

/-- Setting a key then reading it returns the written value. -/
theorem BalMap.get_set_self (m : BalMap) (k : ActorID) (v : TokenAmount) :
    BalMap.get (BalMap.set m k v) k = some v := by
  induction m with
  | nil => simp [BalMap.set, BalMap.get]
  | cons hd tl ih =>
    obtain ⟨a, b⟩ := hd
    by_cases hak : a = k
    · simp [BalMap.set, BalMap.get, hak]
    · simp [BalMap.set, BalMap.get, hak, ih]

/-- Setting one key leaves reads of any other key unchanged. -/
theorem BalMap.get_set_ne (m : BalMap) (k : ActorID) (v : TokenAmount)
    (k2 : ActorID) (hne : k ≠ k2) :
    BalMap.get (BalMap.set m k v) k2 = BalMap.get m k2 := by
  induction m with
  | nil => simp [BalMap.set, BalMap.get, hne]
  | cons hd tl ih =>
    obtain ⟨a, b⟩ := hd
    by_cases hak : a = k
    · subst hak
      simp [BalMap.set, BalMap.get, hne]
    · simp [BalMap.set, BalMap.get, hak, ih]


/-! ## Helper lemmas about the operations -/

/-- When the sender has enough balance and the recipient resolves to an ID
distinct from the sender, `transfer` reaches its success branch and its
whole outcome (result and effect trace) is determined. -/
theorem transfer_ok_result (h : Host) (st : State) (p : TransferParams) (rid : ActorID)
    (hres : h.resolve p.recipient = some rid)
    (hne : h.caller ≠ rid)
    (hbal : p.amount ≤ balOf st.balances h.caller) :
    transfer h (some st) p =
      (Except.ok (transferResultState st h.caller rid p.amount),
       [Effect.putMap (transferResultMap st h.caller rid p.amount),
        Effect.putState (transferResultState st h.caller rid p.amount),
        Effect.setRoot (transferResultState st h.caller rid p.amount)]) := by
  have hnotlt : ¬ balOf st.balances h.caller < p.amount := not_lt.mpr hbal
  simp [transfer, State.load, hres, if_neg hnotlt, if_neg hne,
    transferResultState, transferResultMap]

/-- Sender balance in the result map: prior balance minus the amount. -/
theorem balOf_result_sender (st : State) (sender rid : ActorID) (amount : TokenAmount)
    (hne : sender ≠ rid) :
    balOf (transferResultMap st sender rid amount) sender =
      balOf st.balances sender - amount := by
  simp only [transferResultMap, balOf,
    BalMap.get_set_ne _ rid _ sender (Ne.symm hne), BalMap.get_set_self, Option.getD_some]

/-- Recipient balance in the result map: prior balance plus the amount. -/
theorem balOf_result_recipient (st : State) (sender rid : ActorID) (amount : TokenAmount) :
    balOf (transferResultMap st sender rid amount) rid =
      balOf st.balances rid + amount := by
  simp only [transferResultMap, balOf, BalMap.get_set_self, Option.getD_some]

/-- Keys other than sender and recipient are untouched by the result map. -/
theorem get_result_other (st : State) (sender rid : ActorID) (amount : TokenAmount)
    (k : ActorID) (hk1 : k ≠ sender) (hk2 : k ≠ rid) :
    BalMap.get (transferResultMap st sender rid amount) k = BalMap.get st.balances k := by
  simp only [transferResultMap,
    BalMap.get_set_ne _ rid _ k (Ne.symm hk2), BalMap.get_set_ne _ sender _ k (Ne.symm hk1)]

/-! ## Claim theorems -/

/-- C1: for every transfer call in which the sender differs from the
resolved recipient, the sender's balance is at least the amount, and the
recipient address resolves, the call succeeds; afterwards the sender's
stored balance is its prior balance minus the amount, the recipient's
stored balance is its prior balance plus the amount (absence read as
zero), and the sum of the two balances is unchanged. -/
theorem transfer_success_conserves (h : Host) (st : State) (p : TransferParams)
    (rid : ActorID)
    (hres : h.resolve p.recipient = some rid)
    (hne : h.caller ≠ rid)
    (hbal : p.amount ≤ balOf st.balances h.caller) :
    ∃ st2,
      (transfer h (some st) p).1 = Except.ok st2 ∧
      balOf st2.balances h.caller = balOf st.balances h.caller - p.amount ∧
      balOf st2.balances rid = balOf st.balances rid + p.amount ∧
      balOf st2.balances h.caller + balOf st2.balances rid =
        balOf st.balances h.caller + balOf st.balances rid := by
  have hs := balOf_result_sender st h.caller rid p.amount hne
  have hr := balOf_result_recipient st h.caller rid p.amount
  refine ⟨transferResultState st h.caller rid p.amount, ?_, ?_, ?_, ?_⟩
  · rw [transfer_ok_result h st p rid hres hne hbal]
  · exact hs
  · exact hr
  · show balOf (transferResultMap st h.caller rid p.amount) h.caller +
        balOf (transferResultMap st h.caller rid p.amount) rid = _
    rw [hs, hr]; ring

/-- Witness for C1 at a concrete input: actor 1 with balance 50 sends 40
to address 2. -/
theorem transfer_success_conserves_witness :
    exHost1.resolve exParams1.recipient = some 2 ∧ exHost1.caller ≠ 2 ∧
    exParams1.amount ≤ balOf exState1.balances exHost1.caller ∧
    (∃ st2,
      (transfer exHost1 (some exState1) exParams1).1 = Except.ok st2 ∧
      balOf st2.balances exHost1.caller = balOf exState1.balances exHost1.caller - exParams1.amount ∧
      balOf st2.balances 2 = balOf exState1.balances 2 + exParams1.amount ∧
      balOf st2.balances exHost1.caller + balOf st2.balances 2 =
        balOf exState1.balances exHost1.caller + balOf exState1.balances 2) :=
  ⟨rfl, by decide, by decide,
    transfer_success_conserves exHost1 exState1 exParams1 2 rfl (by decide) (by decide)⟩

/-- C3: a transfer whose amount strictly exceeds the sender's balance
(absence read as zero) fails with `USR_INSUFFICIENT_FUNDS` and leaves the
state root unchanged. -/
theorem transfer_insufficient_funds (h : Host) (st : State) (p : TransferParams)
    (hlt : balOf st.balances h.caller < p.amount) :
    (transfer h (some st) p).1 = Except.error ExitCode.USR_INSUFFICIENT_FUNDS ∧
    applyEffects (some st) (transfer h (some st) p).2 = some st := by
  constructor
  · simp [transfer, State.load, if_pos hlt]
  · simp [transfer, State.load, if_pos hlt, applyEffects]

/-- Witness for C3 at a concrete input: actor 1 with no balance entry
(balance 0) asks to send 7. -/
theorem transfer_insufficient_funds_witness :
    balOf exState2.balances exHost3.caller < exParams3.amount ∧
    ((transfer exHost3 (some exState2) exParams3).1 =
        Except.error ExitCode.USR_INSUFFICIENT_FUNDS ∧
      applyEffects (some exState2) (transfer exHost3 (some exState2) exParams3).2 =
        some exState2) :=
  ⟨by decide, transfer_insufficient_funds exHost3 exState2 exParams3 (by decide)⟩

/-- C4 counterexample: the insufficient-funds check precedes the
self-transfer check, so a self-resolving transfer by a sender whose
balance (0, no entry) is below the amount (5) fails with
`USR_INSUFFICIENT_FUNDS`, not `USR_ILLEGAL_ARGUMENT` — the claim's
"regardless of the sender's balance" is false. -/
theorem transfer_self_not_always_invalid :
    exHost4.resolve exParams4.recipient = some exHost4.caller ∧
    (transfer exHost4 (some exState2) exParams4).1 =
      Except.error ExitCode.USR_INSUFFICIENT_FUNDS ∧
    ExitCode.USR_INSUFFICIENT_FUNDS ≠ ExitCode.USR_ILLEGAL_ARGUMENT :=
  ⟨rfl, rfl, by decide⟩

/-- C4 amended: a transfer whose recipient resolves to the sender's own
identifier fails with `USR_ILLEGAL_ARGUMENT` (and leaves the root
unchanged) provided the sender's balance is at least the amount; with a
smaller balance the call fails earlier with `USR_INSUFFICIENT_FUNDS`. -/
theorem transfer_self_invalid (h : Host) (st : State) (p : TransferParams)
    (hres : h.resolve p.recipient = some h.caller)
    (hbal : p.amount ≤ balOf st.balances h.caller) :
    (transfer h (some st) p).1 = Except.error ExitCode.USR_ILLEGAL_ARGUMENT ∧
    applyEffects (some st) (transfer h (some st) p).2 = some st := by
  have hnotlt : ¬ balOf st.balances h.caller < p.amount := not_lt.mpr hbal
  constructor
  · simp [transfer, State.load, hres, if_neg hnotlt]
  · simp [transfer, State.load, hres, if_neg hnotlt, applyEffects]

/-- Witness for the amended C4 at a concrete input: actor 1 with balance
10 attempts a self-resolving transfer of 5. -/
theorem transfer_self_invalid_witness :
    exHost4.resolve exParams4.recipient = some exHost4.caller ∧
    exParams4.amount ≤ balOf exState4w.balances exHost4.caller ∧
    ((transfer exHost4 (some exState4w) exParams4).1 =
        Except.error ExitCode.USR_ILLEGAL_ARGUMENT ∧
      applyEffects (some exState4w) (transfer exHost4 (some exState4w) exParams4).2 =
        some exState4w) :=
  ⟨rfl, by decide, transfer_self_invalid exHost4 exState4w exParams4 rfl (by decide)⟩

/-- C8 counterexample: a negative-amount transfer whose recipient resolves
(to 2) and differs from the sender (1) does not always succeed — when the
sender's stored balance (-5) is below the amount (-3) the insufficient-
funds check fires and the call fails with `USR_INSUFFICIENT_FUNDS`. -/
theorem transfer_negative_not_always_ok :
    exParams8.amount < 0 ∧
    exHost8.resolve exParams8.recipient = some 2 ∧
    exHost8.caller ≠ 2 ∧
    (transfer exHost8 (some exState8) exParams8).1 =
      Except.error ExitCode.USR_INSUFFICIENT_FUNDS :=
  ⟨by decide, rfl, by decide, rfl⟩

/-- C8 amended: transfer performs no non-negativity validation of the
amount — a negative-amount transfer whose recipient resolves and differs
from the sender succeeds whenever the sender's balance is at least the
(negative) amount, and it then strictly increases the sender's stored
balance and strictly decreases the recipient's stored balance by the
amount's magnitude. -/
theorem transfer_negative_amount (h : Host) (st : State) (p : TransferParams)
    (rid : ActorID)
    (hneg : p.amount < 0)
    (hres : h.resolve p.recipient = some rid)
    (hne : h.caller ≠ rid)
    (hbal : p.amount ≤ balOf st.balances h.caller) :
    ∃ st2,
      (transfer h (some st) p).1 = Except.ok st2 ∧
      balOf st2.balances h.caller = balOf st.balances h.caller + -p.amount ∧
      balOf st2.balances rid = balOf st.balances rid - -p.amount ∧
      balOf st.balances h.caller < balOf st2.balances h.caller ∧
      balOf st2.balances rid < balOf st.balances rid := by
  have hs := balOf_result_sender st h.caller rid p.amount hne
  have hr := balOf_result_recipient st h.caller rid p.amount
  refine ⟨transferResultState st h.caller rid p.amount, ?_, ?_, ?_, ?_, ?_⟩
  · rw [transfer_ok_result h st p rid hres hne hbal]
  · show balOf (transferResultMap st h.caller rid p.amount) h.caller = _
    rw [hs]; ring
  · show balOf (transferResultMap st h.caller rid p.amount) rid = _
    rw [hr]; ring
  · show _ < balOf (transferResultMap st h.caller rid p.amount) h.caller
    rw [hs]; linarith
  · show balOf (transferResultMap st h.caller rid p.amount) rid < _
    rw [hr]; linarith

/-- Witness for the amended C8 at a concrete input: actor 1 (no entry,
balance 0) transfers -3 to address 2; its balance becomes 3 and the
recipient's becomes -3. -/
theorem transfer_negative_amount_witness :
    exParams8.amount < 0 ∧
    exHost8.resolve exParams8.recipient = some 2 ∧
    exHost8.caller ≠ 2 ∧
    exParams8.amount ≤ balOf exState8w.balances exHost8.caller ∧
    (∃ st2,
      (transfer exHost8 (some exState8w) exParams8).1 = Except.ok st2 ∧
      balOf st2.balances exHost8.caller = balOf exState8w.balances exHost8.caller + -exParams8.amount ∧
      balOf st2.balances 2 = balOf exState8w.balances 2 - -exParams8.amount ∧
      balOf exState8w.balances exHost8.caller < balOf st2.balances exHost8.caller ∧
      balOf st2.balances 2 < balOf exState8w.balances 2) :=
  ⟨by decide, rfl, by decide, by decide,
    transfer_negative_amount exHost8 exState8w exParams8 2 (by decide) rfl (by decide) (by decide)⟩

/-- C2 (code defect, evaluated at a concrete input): actor 7 is the
resolved owner and calls mint for 100 on the freshly constructed state,
yet the call returns with the loaded state unchanged — the owner's balance
stays 0, no effect is emitted, nothing is flushed or committed, and the
state root is unchanged, contradicting the specified mint effect. -/
theorem mint_commits_nothing :
    exHost2.resolve exState2.owner = some exHost2.caller ∧
    (mint exHost2 (some exState2) exParams2).1 = Except.ok exState2 ∧
    (mint exHost2 (some exState2) exParams2).2 = [] ∧
    balOf exState2.balances exHost2.caller = 0 ∧
    applyEffects (some exState2) (mint exHost2 (some exState2) exParams2).2 =
      some exState2 :=
  ⟨rfl, rfl, rfl, rfl, rfl⟩

/-- C5: a constructor call by any caller other than the init actor fails
with `USR_FORBIDDEN` and sets no state root; a call by the init actor
succeeds with the state assembled from the parameters plus the flushed
empty balances root, whose serialization and `set_root` are the emitted
effects, the new root being exactly that state. -/
theorem constructor_spec (h : Host) (p : ConstructorParams) (root : Option State) :
    (h.caller ≠ INIT_ACTOR_ADDR →
      constructor h p = (Except.error ExitCode.USR_FORBIDDEN, []) ∧
      applyEffects root (constructor h p).2 = root) ∧
    (h.caller = INIT_ACTOR_ADDR →
      (constructor h p).1 = Except.ok (State.new p) ∧
      (State.new p).name = p.name ∧ (State.new p).symbol = p.symbol ∧
      (State.new p).max_supply = p.max_supply ∧ (State.new p).owner = p.owner ∧
      (State.new p).balances = ([] : BalMap) ∧
      (constructor h p).2 =
        [Effect.putMap [], Effect.putState (State.new p), Effect.setRoot (State.new p)] ∧
      applyEffects root (constructor h p).2 = some (State.new p)) := by
  constructor
  · intro hne
    constructor
    · simp [constructor, if_pos hne]
    · simp [constructor, if_pos hne, applyEffects]
  · intro heq
    refine ⟨?_, rfl, rfl, rfl, rfl, rfl, ?_, ?_⟩ <;>
      simp [constructor, heq, State.save, State.new, applyEffects]

/-- Witness for C5 at concrete inputs: caller 2 is rejected with no root
set (root stays `none`), and the init caller 1 gets the constructed
state. -/
theorem constructor_spec_witness :
    exHost5.caller ≠ INIT_ACTOR_ADDR ∧
    (constructor exHost5 exCParams5 = (Except.error ExitCode.USR_FORBIDDEN, []) ∧
      applyEffects none (constructor exHost5 exCParams5).2 = none) ∧
    exHost5i.caller = INIT_ACTOR_ADDR ∧
    (constructor exHost5i exCParams5).1 = Except.ok (State.new exCParams5) :=
  ⟨by decide, (constructor_spec exHost5 exCParams5 none).1 (by decide), rfl,
    ((constructor_spec exHost5i exCParams5 none).2 rfl).1⟩

/-- C6: mint fails with `USR_ILLEGAL_ARGUMENT` when `state.owner` does not
resolve, and with `USR_FORBIDDEN` when the resolved owner identifier
differs from the caller. -/
theorem mint_resolution_and_auth (h : Host) (st : State) (p : TransferParams) :
    (h.resolve st.owner = none →
      (mint h (some st) p).1 = Except.error ExitCode.USR_ILLEGAL_ARGUMENT) ∧
    (∀ oid, h.resolve st.owner = some oid → oid ≠ h.caller →
      (mint h (some st) p).1 = Except.error ExitCode.USR_FORBIDDEN) := by
  constructor
  · intro hn
    simp [mint, State.load, hn]
  · intro oid ho hne
    simp [mint, State.load, ho, if_pos hne]

/-- Witness for C6 at concrete inputs: a resolver that fails gives
`USR_ILLEGAL_ARGUMENT`; owner resolving to 3 with caller 7 gives
`USR_FORBIDDEN`. -/
theorem mint_resolution_and_auth_witness :
    exHost6n.resolve exState2.owner = none ∧
    (mint exHost6n (some exState2) exParams2).1 =
      Except.error ExitCode.USR_ILLEGAL_ARGUMENT ∧
    exHost6f.resolve exState2.owner = some 3 ∧ (3 : ActorID) ≠ exHost6f.caller ∧
    (mint exHost6f (some exState2) exParams2).1 = Except.error ExitCode.USR_FORBIDDEN :=
  ⟨rfl, (mint_resolution_and_auth exHost6n exState2 exParams2).1 rfl, rfl, by decide,
    (mint_resolution_and_auth exHost6f exState2 exParams2).2 3 rfl (by decide)⟩

/-- C9 counterexample: a zero-amount transfer from actor 1 (no entry) to
address 2 (no entry) succeeds and writes balance 0 for both parties, so
both keys are materialized by a zero write — refuting "never materialized
until first non-zero write". -/
theorem transfer_materializes_zero_write :
    BalMap.get exState9.balances 1 = none ∧
    BalMap.get exState9.balances 2 = none ∧
    (transfer exHost3 (some exState9) exParams9).1 = Except.ok exState9r ∧
    BalMap.get exState9r.balances 1 = some 0 ∧
    BalMap.get exState9r.balances 2 = some 0 :=
  ⟨rfl, rfl, rfl, rfl, rfl⟩

/-- C9 amended: reads of keys absent from the balances map return zero,
and a successful transfer leaves every key other than its sender and its
resolved recipient exactly as it was (absent keys stay absent and still
read zero) — but the transfer does materialize entries for its sender and
recipient even when the value written is zero. -/
theorem transfer_untouched_keys (h : Host) (st : State) (p : TransferParams)
    (rid : ActorID)
    (hres : h.resolve p.recipient = some rid)
    (hne : h.caller ≠ rid)
    (hbal : p.amount ≤ balOf st.balances h.caller)
    (k : ActorID) (hk1 : k ≠ h.caller) (hk2 : k ≠ rid) :
    ∃ st2,
      (transfer h (some st) p).1 = Except.ok st2 ∧
      BalMap.get st2.balances k = BalMap.get st.balances k ∧
      (BalMap.get st.balances k = none → balOf st2.balances k = 0) := by
  refine ⟨transferResultState st h.caller rid p.amount, ?_, ?_, ?_⟩
  · rw [transfer_ok_result h st p rid hres hne hbal]
  · exact get_result_other st h.caller rid p.amount k hk1 hk2
  · intro hnone
    show balOf (transferResultMap st h.caller rid p.amount) k = 0
    simp only [balOf, get_result_other st h.caller rid p.amount k hk1 hk2, hnone,
      Option.getD_none]

/-- Witness for the amended C9 at a concrete input: during the transfer of
40 from actor 1 to address 2, the untouched key 3 keeps its (absent)
binding and still reads zero. -/
theorem transfer_untouched_keys_witness :
    exHost1.resolve exParams1.recipient = some 2 ∧ exHost1.caller ≠ 2 ∧
    exParams1.amount ≤ balOf exState1.balances exHost1.caller ∧
    (3 : ActorID) ≠ exHost1.caller ∧ (3 : ActorID) ≠ 2 ∧
    (∃ st2,
      (transfer exHost1 (some exState1) exParams1).1 = Except.ok st2 ∧
      BalMap.get st2.balances 3 = BalMap.get exState1.balances 3 ∧
      (BalMap.get exState1.balances 3 = none → balOf st2.balances 3 = 0)) :=
  ⟨rfl, by decide, by decide, by decide, by decide,
    transfer_untouched_keys exHost1 exState1 exParams1 2 rfl (by decide) (by decide) 3
      (by decide) (by decide)⟩

/-- C10: any state committed by a successful transfer or mint call keeps
the name, symbol, max_supply, and owner of the loaded state; only the
balances root may differ. -/
theorem metadata_unchanged (h : Host) (st : State) (p : TransferParams) :
    (∀ st2, (transfer h (some st) p).1 = Except.ok st2 →
      st2.name = st.name ∧ st2.symbol = st.symbol ∧
      st2.max_supply = st.max_supply ∧ st2.owner = st.owner) ∧
    (∀ st2, (mint h (some st) p).1 = Except.ok st2 →
      st2.name = st.name ∧ st2.symbol = st.symbol ∧
      st2.max_supply = st.max_supply ∧ st2.owner = st.owner) := by
  constructor
  · intro st2 hok
    by_cases hlt : balOf st.balances h.caller < p.amount
    · simp [transfer, State.load, if_pos hlt] at hok
    · cases hres : h.resolve p.recipient with
      | none => simp [transfer, State.load, if_neg hlt, hres] at hok
      | some rid =>
        by_cases hself : h.caller = rid
        · subst hself
          simp [transfer, State.load, if_neg hlt, hres] at hok
        · rw [transfer_ok_result h st p rid hres hself (not_lt.1 hlt)] at hok
          simp only [Except.ok.injEq] at hok
          subst hok
          exact ⟨rfl, rfl, rfl, rfl⟩
  · intro st2 hok
    cases hres : h.resolve st.owner with
    | none => simp [mint, State.load, hres] at hok
    | some oid =>
      by_cases hoc : oid ≠ h.caller
      · simp [mint, State.load, hres, if_pos hoc] at hok
      · rw [show (mint h (some st) p).1 = Except.ok st from by
          simp [mint, State.load, hres, if_neg hoc]] at hok
        simp only [Except.ok.injEq] at hok
        subst hok
        exact ⟨rfl, rfl, rfl, rfl⟩

/-- Witness for C10 at a concrete input: the transfer of 40 from actor 1
to address 2 keeps all metadata fields, as does the (no-op) authorized
mint. -/
theorem metadata_unchanged_witness :
    ((transfer exHost1 (some exState1) exParams1).1 =
        Except.ok (transferResultState exState1 1 2 40) →
      (transferResultState exState1 1 2 40).name = exState1.name ∧
      (transferResultState exState1 1 2 40).symbol = exState1.symbol ∧
      (transferResultState exState1 1 2 40).max_supply = exState1.max_supply ∧
      (transferResultState exState1 1 2 40).owner = exState1.owner) ∧
    ((transferResultState exState1 1 2 40).name = exState1.name ∧
      (transferResultState exState1 1 2 40).symbol = exState1.symbol ∧
      (transferResultState exState1 1 2 40).max_supply = exState1.max_supply ∧
      (transferResultState exState1 1 2 40).owner = exState1.owner) :=
  ⟨(metadata_unchanged exHost1 exState1 exParams1).1 (transferResultState exState1 1 2 40),
    (metadata_unchanged exHost1 exState1 exParams1).1 (transferResultState exState1 1 2 40)
      (by rw [transfer_ok_result exHost1 exState1 exParams1 2 rfl (by decide) (by decide)]; rfl)⟩

/-- Every transfer outcome is either an abort with an empty effect trace,
or a success whose trace is flush, state put, and root set, in order. -/
theorem transfer_trace_cases (h : Host) (root : Option State) (p : TransferParams) :
    ((∃ e, (transfer h root p).1 = Except.error e) ∧ (transfer h root p).2 = []) ∨
    (∃ st2, (transfer h root p).1 = Except.ok st2 ∧
      (transfer h root p).2 =
        [Effect.putMap st2.balances, Effect.putState st2, Effect.setRoot st2]) := by
  cases root with
  | none => exact Or.inl ⟨⟨ExitCode.USR_ILLEGAL_STATE, rfl⟩, rfl⟩
  | some st =>
    by_cases hlt : balOf st.balances h.caller < p.amount
    · refine Or.inl ⟨⟨ExitCode.USR_INSUFFICIENT_FUNDS, ?_⟩, ?_⟩ <;>
        simp [transfer, State.load, if_pos hlt]
    · cases hres : h.resolve p.recipient with
      | none =>
        refine Or.inl ⟨⟨ExitCode.USR_ILLEGAL_ARGUMENT, ?_⟩, ?_⟩ <;>
          simp [transfer, State.load, if_neg hlt, hres]
      | some rid =>
        by_cases hself : h.caller = rid
        · subst hself
          refine Or.inl ⟨⟨ExitCode.USR_ILLEGAL_ARGUMENT, ?_⟩, ?_⟩ <;>
            simp [transfer, State.load, if_neg hlt, hres]
        · refine Or.inr ⟨transferResultState st h.caller rid p.amount, ?_, ?_⟩
          · rw [transfer_ok_result h st p rid hres hself (not_lt.1 hlt)]
          · rw [transfer_ok_result h st p rid hres hself (not_lt.1 hlt)]
            rfl

/-- Mint never emits any store effect: it loads but never flushes, stores,
or sets a root. -/
theorem mint_trace_empty (h : Host) (root : Option State) (p : TransferParams) :
    (mint h root p).2 = [] := by
  cases root with
  | none => rfl
  | some st =>
    cases hres : h.resolve st.owner with
    | none => simp [mint, State.load, hres]
    | some oid =>
      by_cases hoc : oid ≠ h.caller
      · simp [mint, State.load, hres, if_pos hoc]
      · simp [mint, State.load, hres, if_neg hoc]

/-- Every constructor outcome is either the forbidden abort with an empty
trace, or a success whose trace ends with the root set. -/
theorem constructor_trace_cases (h : Host) (p : ConstructorParams) :
    ((∃ e, (constructor h p).1 = Except.error e) ∧ (constructor h p).2 = []) ∨
    (∃ st2, (constructor h p).1 = Except.ok st2 ∧
      (constructor h p).2 =
        [Effect.putMap [], Effect.putState st2, Effect.setRoot st2]) := by
  by_cases hne : h.caller ≠ INIT_ACTOR_ADDR
  · refine Or.inl ⟨⟨ExitCode.USR_FORBIDDEN, ?_⟩, ?_⟩ <;> simp [constructor, if_pos hne]
  · refine Or.inr ⟨State.new p, ?_, ?_⟩ <;> simp [constructor, if_neg hne, State.save]

/-- C7: for each of the three operations, an erroring call emits no
`set_root` and leaves the previously committed state root untouched, and
any `set_root` a call does emit is the last action of its effect trace. -/
theorem state_root_update_is_last (h : Host) (root : Option State)
    (p : TransferParams) (cp : ConstructorParams) :
    opAtomic (transfer h root p) root ∧ opAtomic (mint h root p) root ∧
    opAtomic (constructor h cp) root := by
  refine ⟨?_, ?_, ?_⟩
  · rcases transfer_trace_cases h root p with ⟨_, ht⟩ | ⟨st2, hok, ht⟩
    · constructor
      · intro _
        rw [ht]
        exact ⟨fun s => List.not_mem_nil _, rfl⟩
      · intro s hs
        rw [ht] at hs
        exact absurd hs (List.not_mem_nil _)
    · constructor
      · rintro ⟨e, he⟩
        rw [hok] at he
        cases he
      · intro s hs
        rw [ht] at hs ⊢
        simp only [List.mem_cons, List.not_mem_nil, or_false] at hs
        rcases hs with hs | hs | hs
        · cases hs
        · cases hs
        · cases hs
          rfl
  · have ht := mint_trace_empty h root p
    constructor
    · intro _
      rw [ht]
      exact ⟨fun s => List.not_mem_nil _, rfl⟩
    · intro s hs
      rw [ht] at hs
      exact absurd hs (List.not_mem_nil _)
  · rcases constructor_trace_cases h cp with ⟨_, ht⟩ | ⟨st2, hok, ht⟩
    · constructor
      · intro _
        rw [ht]
        exact ⟨fun s => List.not_mem_nil _, rfl⟩
      · intro s hs
        rw [ht] at hs
        exact absurd hs (List.not_mem_nil _)
    · constructor
      · rintro ⟨e, he⟩
        rw [hok] at he
        cases he
      · intro s hs
        rw [ht] at hs ⊢
        simp only [List.mem_cons, List.not_mem_nil, or_false] at hs
        rcases hs with hs | hs | hs
        · cases hs
        · cases hs
        · cases hs
          rfl

/-- Witness for C7 at concrete inputs: atomicity of the three operations
on the constructed state with actor 1 holding 50, transferring 40. -/
theorem state_root_update_is_last_witness :
    opAtomic (transfer exHost1 (some exState1) exParams1) (some exState1) ∧
    opAtomic (mint exHost1 (some exState1) exParams1) (some exState1) ∧
    opAtomic (constructor exHost1 exCParams5) (some exState1) :=
  state_root_update_is_last exHost1 (some exState1) exParams1 exCParams5
